import Mathlib

/-!
Verification of the component-resolution and orchestration engine of the
genai-stack CLI (`src/genai_stack/cli.py`): the `start` and `etl` commands.

The commands are embedded as pure Lean functions over
* a registry environment `Env` (the registry catalogs and constructor
  behaviour live outside the visible source; they are modelled from the
  spec as abstract predicates on identifiers), and
* a parsed configuration document `Config` with optional `vectordb`,
  `retriever` and `model` sections.

Each command returns its outcome together with an event trace recording
component-resolution attempts, warnings, registry lookups and the terminal
calls (custom-model path, HTTP server, ETL loader), so that claims about
"never looks up", "exactly once", "in this order" become statements about
the trace.
-/

namespace GenaiStack

/-- Modelled from the spec: the reserved sentinel identifier selecting the
custom-model path (constant `CUSTOM_MODEL_KEY_NAME` of the constants module,
which is outside the visible source; the spec names the sentinel "custom"). -/
def CUSTOM_MODEL_KEY_NAME : String := "custom"

/-- Modelled from the spec: the path of the generated default configuration
file produced by `create_default_model_json_file` (outside the visible
source; the spec only requires that a generated default stands in for an
omitted config file). -/
def DEFAULT_MODEL_JSON : String := "default_model.json"

/-- The message of the fatal error raised at cli.py:115-117 for an unknown
prebuilt model (source spelling kept). -/
def unknownPrebuiltMsg : String :=
  "Unkown Prebuilt Model Provided. Checkout how to run a custom model with GenAI Stack."

/-- A Python exception value as far as the engine observes it: the `start`
and `etl` commands catch exactly `ValueError`. -/
inductive PyErr where
  | valueError (msg : String)
  deriving DecidableEq

/-- The message carried by an exception. -/
def PyErr.msg : PyErr → String
  | .valueError m => m

/-- The parsed configuration document: named sections `vectordb`,
`retriever`, `model`, each carrying the implementation identifier declared
in that section, or `none` when the section is absent. -/
structure Config where
  vectordb : Option String
  retriever : Option String
  model : Option String
  deriving DecidableEq

/-- The `ConfigLoader` object handed to the custom-model path: it wraps the
resolved config file reference and the parsed document. -/
structure ConfigLoader where
  configFile : String
  doc : Config
  deriving DecidableEq

/-- A constructed vectordb client: `get_vectordb_class(name)(config=config_file)`
records the identifier it resolved from and the config it was given. -/
structure VectorDB where
  name : String
  config : Option String
  deriving DecidableEq

/-- A constructed retriever:
`get_retriever_class(name)(config=config_file, vectordb=vectordb_client)`. -/
structure Retriever where
  name : String
  config : Option String
  vectordb : Option VectorDB
  deriving DecidableEq

/-- A constructed prebuilt model:
`get_model_class(model)(config=config_file, retriever=retriever)`. -/
structure Model where
  name : String
  config : Option String
  retriever : Option Retriever
  deriving DecidableEq

/-- Modelled from the spec: the registry environment. The catalogs behind
`get_vectordb_class`, `get_retriever_class`, `AVAILABLE_MODEL_MAPS` and the
component constructors live outside the visible source; the spec describes
them as a read-only registry in which lookup of an unknown identifier fails,
and construction by a found factory may itself fail. Failures of the
vectordb/retriever steps surface as `ValueError` (the exception type the CLI
catches). -/
structure Env where
  vectordbRegistered : String → Bool
  vectordbConstructOk : String → Bool
  retrieverRegistered : String → Bool
  retrieverConstructOk : String → Bool
  availableModelMaps : List String
  modelConstructOk : String → Bool

/-- Characters Python's `str.strip()` removes: the Python whitespace set. -/
def isPySpace (c : Char) : Bool :=
  c = ' ' ∨ c = '\t' ∨ c = '\n' ∨ c = '\x0d' ∨ c = '\x0b' ∨ c = '\x0c'

/-- Python's `str.strip()` with no argument: remove leading and trailing
whitespace (cli.py:107 `model = model.strip()`). -/
def pyStrip (s : String) : String :=
  ⟨(((s.data.dropWhile isPySpace).reverse.dropWhile isPySpace).reverse)⟩

/-- Events recorded while a command runs. -/
inductive Event where
  | createdDefaultConfig
  | attemptVectordb
  | warnVectordb (msg : String)
  | attemptRetriever
  | warnRetriever (msg : String)
  | attemptModel
  | modelRegistryLookup (name : String)
  | callRunCustomModel (loader : ConfigLoader) (retriever : Option Retriever)
      (configFile : String)
  | callRunHttpServer (model : Model)
  | infoDefaultVectordbConfig
  | callRunEtlLoader (configFile : Option String) (vectordb : VectorDB)
  deriving DecidableEq

/-- Event kinds, for counting occurrences irrespective of payload. -/
inductive EKind where
  | kDefault | kVdbAttempt | kVdbWarn | kRetAttempt | kRetWarn
  | kModelAttempt | kModelLookup | kCustomCall | kHttpCall
  | kInfoVdb | kEtlCall
  deriving DecidableEq

/-- The kind of an event. -/
def Event.kind : Event → EKind
  | .createdDefaultConfig => .kDefault
  | .attemptVectordb => .kVdbAttempt
  | .warnVectordb _ => .kVdbWarn
  | .attemptRetriever => .kRetAttempt
  | .warnRetriever _ => .kRetWarn
  | .attemptModel => .kModelAttempt
  | .modelRegistryLookup _ => .kModelLookup
  | .callRunCustomModel _ _ _ => .kCustomCall
  | .callRunHttpServer _ => .kHttpCall
  | .infoDefaultVectordbConfig => .kInfoVdb
  | .callRunEtlLoader _ _ => .kEtlCall

/-- Number of events of a given kind in a trace. -/
def countKind (k : EKind) : List Event → Nat
  | [] => 0
  | e :: t => (if e.kind = k then 1 else 0) + countKind k t

/-- The successful value of a caught computation, `none` on failure
(the `except ValueError: ... = None` pattern of cli.py:92-94, 102-104). -/
def okOf {α : Type} : Except PyErr α → Option α
  | .ok a => some a
  | .error _ => none

/-- The body of the `try` at cli.py:86-91 / 128-133: read the `vectordb`
section identifier (a missing section raises `ValueError`), look the
identifier up in the registry (an unknown identifier raises `ValueError`),
and invoke the factory on the config (a failing constructor raises
`ValueError`); registry and constructor behaviour modelled from the spec. -/
def tryVectordb (env : Env) (sec : Option String) (configFile : Option String) :
    Except PyErr VectorDB :=
  match sec with
  | none => .error (.valueError "Missing config section vectordb")
  | some n =>
    if env.vectordbRegistered n then
      if env.vectordbConstructOk n then
        .ok { name := n, config := configFile }
      else .error (.valueError ("Failed to construct vectordb " ++ n))
    else .error (.valueError ("Unknown vectordb " ++ n))

/-- The body of the `try` at cli.py:96-101: read the `retriever` section
identifier, look it up, and construct passing the (possibly `none`)
vectordb client as dependency. -/
def tryRetriever (env : Env) (sec : Option String) (configFile : Option String)
    (vdb : Option VectorDB) : Except PyErr Retriever :=
  match sec with
  | none => .error (.valueError "Missing config section retriever")
  | some n =>
    if env.retrieverRegistered n then
      if env.retrieverConstructOk n then
        .ok { name := n, config := configFile, vectordb := vdb }
      else .error (.valueError ("Failed to construct retriever " ++ n))
    else .error (.valueError ("Unknown retriever " ++ n))

/-- cli.py:81-83: `if not config_file:` (Python falsiness: absent or empty)
generate a default config file; otherwise use the given one. -/
def resolveStartConfigFile (config_file : Option String) : String :=
  match config_file with
  | none => DEFAULT_MODEL_JSON
  | some s => if s = "" then DEFAULT_MODEL_JSON else s

/-- The defaulting events of `start`: a warning plus the creation of the
default model JSON file, only when the option is absent or empty. -/
def defaultEvents (config_file : Option String) : List Event :=
  match config_file with
  | none => [.createdDefaultConfig]
  | some s => if s = "" then [.createdDefaultConfig] else []

/-- The vectordb resolution attempt of `start` (cli.py:86-94), on the
resolved config file. -/
def startVdb (env : Env) (cfg : Config) (config_file : Option String) :
    Except PyErr VectorDB :=
  tryVectordb env cfg.vectordb (some (resolveStartConfigFile config_file))

/-- The retriever resolution attempt of `start` (cli.py:96-104), receiving
the caught vectordb result as dependency. -/
def startRet (env : Env) (cfg : Config) (config_file : Option String) :
    Except PyErr Retriever :=
  tryRetriever env cfg.retriever (some (resolveStartConfigFile config_file))
    (okOf (startVdb env cfg config_file))

/-- Trace fragment of a vectordb attempt: the attempt marker, plus the
warning logged by the `except ValueError` handler on failure. -/
def vdbEvents (r : Except PyErr VectorDB) : List Event :=
  match r with
  | .ok _ => [.attemptVectordb]
  | .error e => [.attemptVectordb, .warnVectordb e.msg]

/-- Trace fragment of the retriever attempt. -/
def retEvents (r : Except PyErr Retriever) : List Event :=
  match r with
  | .ok _ => [.attemptRetriever]
  | .error e => [.attemptRetriever, .warnRetriever e.msg]

/-- Terminal outcome of the `start` command. -/
inductive StartOutcome where
  | customRun (loader : ConfigLoader) (retriever : Option Retriever)
      (configFile : String)
  | serverStarted (model : Model)
  | raisedGenAIStack (msg : String)
  | uncaughtError (e : PyErr)
  deriving DecidableEq

/-- The `start` command (cli.py:74-119): default the config file if absent,
build the loader, attempt vectordb then retriever with the
tolerate-and-continue policy, read the mandatory `model` section, strip it,
and dispatch: custom sentinel to `run_custom_model`; otherwise a prebuilt
lookup against `AVAILABLE_MODEL_MAPS` that raises `GenAIStackException` on
an unknown identifier, then model construction and `run_http_server`. -/
def start (env : Env) (cfg : Config) (config_file : Option String) :
    StartOutcome × List Event :=
  let cf := resolveStartConfigFile config_file
  let loader : ConfigLoader := { configFile := cf, doc := cfg }
  let vdb := startVdb env cfg config_file
  let ret := startRet env cfg config_file
  let pre := defaultEvents config_file ++ vdbEvents vdb ++ retEvents ret
  match cfg.model with
  | none =>
    (.uncaughtError (.valueError "Missing config section model"),
      pre ++ [.attemptModel])
  | some m0 =>
    let m := pyStrip m0
    if m = CUSTOM_MODEL_KEY_NAME then
      (.customRun loader (okOf ret) cf,
        pre ++ [.attemptModel, .callRunCustomModel loader (okOf ret) cf])
    else if m ∈ env.availableModelMaps then
      if env.modelConstructOk m then
        let mdl : Model := { name := m, config := some cf, retriever := okOf ret }
        (.serverStarted mdl,
          pre ++ [.attemptModel, .modelRegistryLookup m, .callRunHttpServer mdl])
      else
        (.uncaughtError (.valueError ("Failed to construct model " ++ m)),
          pre ++ [.attemptModel, .modelRegistryLookup m])
    else
      (.raisedGenAIStack unknownPrebuiltMsg,
        pre ++ [.attemptModel, .modelRegistryLookup m])

/-- Terminal outcome of the `etl` command. -/
inductive EtlOutcome where
  | completed (configFile : Option String) (vectordb : VectorDB)
  | raised (e : PyErr)
  deriving DecidableEq

/-- The `etl` command (cli.py:122-147): no config-file defaulting; attempt
the vectordb; on failure log the warning and the default-config hint and
re-raise the original error; on success run the ETL loader with the config
file and the constructed vectordb. -/
def etl (env : Env) (cfg : Config) (config_file : Option String) :
    EtlOutcome × List Event :=
  match tryVectordb env cfg.vectordb config_file with
  | .ok v =>
    (.completed config_file v,
      [.attemptVectordb, .callRunEtlLoader config_file v])
  | .error e =>
    (.raised e,
      [.attemptVectordb, .warnVectordb e.msg, .infoDefaultVectordbConfig])

/-! ### Counting lemmas -/

theorem countKind_nil (k : EKind) : countKind k [] = 0 := rfl

theorem countKind_cons (k : EKind) (e : Event) (t : List Event) :
    countKind k (e :: t) = (if e.kind = k then 1 else 0) + countKind k t := rfl

theorem countKind_append (k : EKind) (t1 t2 : List Event) :
    countKind k (t1 ++ t2) = countKind k t1 + countKind k t2 := by
  induction t1 with
  | nil => simp [countKind]
  | cons e t ih => simp [countKind, ih, Nat.add_assoc]

theorem countKind_eq_zero_of_forall (k : EKind) (t : List Event)
    (h : ∀ e ∈ t, e.kind ≠ k) : countKind k t = 0 := by
  induction t with
  | nil => rfl
  | cons e t ih =>
    have he : e.kind ≠ k := h e (by simp)
    simp [countKind, he, ih fun x hx => h x (by simp [hx])]

theorem countKind_defaultEvents (k : EKind) (cf : Option String)
    (h : k ≠ EKind.kDefault) : countKind k (defaultEvents cf) = 0 := by
  rcases cf with _ | s
  · simp [defaultEvents, countKind, Event.kind, Ne.symm h]
  · by_cases hs : s = "" <;>
      simp [defaultEvents, countKind, hs, Event.kind, Ne.symm h]

theorem countKind_vdbEvents_attempt (r : Except PyErr VectorDB) :
    countKind EKind.kVdbAttempt (vdbEvents r) = 1 := by
  rcases r with v | e <;> simp [vdbEvents, countKind, Event.kind]

theorem countKind_vdbEvents_warn (r : Except PyErr VectorDB) :
    countKind EKind.kVdbWarn (vdbEvents r)
      = match r with | .ok _ => 0 | .error _ => 1 := by
  rcases r with v | e <;> simp [vdbEvents, countKind, Event.kind]

theorem countKind_vdbEvents_other (r : Except PyErr VectorDB) (k : EKind)
    (h1 : k ≠ EKind.kVdbAttempt) (h2 : k ≠ EKind.kVdbWarn) :
    countKind k (vdbEvents r) = 0 := by
  rcases r with v | e <;>
    simp [vdbEvents, countKind, Event.kind, Ne.symm h1, Ne.symm h2]

theorem countKind_retEvents_attempt (r : Except PyErr Retriever) :
    countKind EKind.kRetAttempt (retEvents r) = 1 := by
  rcases r with v | e <;> simp [retEvents, countKind, Event.kind]

theorem countKind_retEvents_warn (r : Except PyErr Retriever) :
    countKind EKind.kRetWarn (retEvents r)
      = match r with | .ok _ => 0 | .error _ => 1 := by
  rcases r with v | e <;> simp [retEvents, countKind, Event.kind]

theorem countKind_retEvents_other (r : Except PyErr Retriever) (k : EKind)
    (h1 : k ≠ EKind.kRetAttempt) (h2 : k ≠ EKind.kRetWarn) :
    countKind k (retEvents r) = 0 := by
  rcases r with v | e <;>
    simp [retEvents, countKind, Event.kind, Ne.symm h1, Ne.symm h2]

/-! ### Branch equations for `start` -/

theorem start_eq_missing (env : Env) (cfg : Config) (config_file : Option String)
    (hm : cfg.model = none) :
    start env cfg config_file =
      (.uncaughtError (.valueError "Missing config section model"),
        defaultEvents config_file ++ vdbEvents (startVdb env cfg config_file)
          ++ retEvents (startRet env cfg config_file) ++ [.attemptModel]) := by
  simp only [start, hm]

theorem start_eq_custom (env : Env) (cfg : Config) (config_file : Option String)
    (m0 : String) (hm : cfg.model = some m0)
    (hc : pyStrip m0 = CUSTOM_MODEL_KEY_NAME) :
    start env cfg config_file =
      (.customRun { configFile := resolveStartConfigFile config_file, doc := cfg }
          (okOf (startRet env cfg config_file)) (resolveStartConfigFile config_file),
        defaultEvents config_file ++ vdbEvents (startVdb env cfg config_file)
          ++ retEvents (startRet env cfg config_file)
          ++ [.attemptModel,
              .callRunCustomModel
                { configFile := resolveStartConfigFile config_file, doc := cfg }
                (okOf (startRet env cfg config_file))
                (resolveStartConfigFile config_file)]) := by
  simp [start, hm, hc]

theorem start_eq_prebuilt_ok (env : Env) (cfg : Config)
    (config_file : Option String) (m0 : String) (hm : cfg.model = some m0)
    (hc : pyStrip m0 ≠ CUSTOM_MODEL_KEY_NAME)
    (hmem : pyStrip m0 ∈ env.availableModelMaps)
    (hok : env.modelConstructOk (pyStrip m0) = true) :
    start env cfg config_file =
      (.serverStarted
          { name := pyStrip m0, config := some (resolveStartConfigFile config_file),
            retriever := okOf (startRet env cfg config_file) },
        defaultEvents config_file ++ vdbEvents (startVdb env cfg config_file)
          ++ retEvents (startRet env cfg config_file)
          ++ [.attemptModel, .modelRegistryLookup (pyStrip m0),
              .callRunHttpServer
                { name := pyStrip m0,
                  config := some (resolveStartConfigFile config_file),
                  retriever := okOf (startRet env cfg config_file) }]) := by
  simp [start, hm, hc, hmem, hok]

theorem start_eq_prebuilt_fail (env : Env) (cfg : Config)
    (config_file : Option String) (m0 : String) (hm : cfg.model = some m0)
    (hc : pyStrip m0 ≠ CUSTOM_MODEL_KEY_NAME)
    (hmem : pyStrip m0 ∈ env.availableModelMaps)
    (hko : env.modelConstructOk (pyStrip m0) = false) :
    start env cfg config_file =
      (.uncaughtError (.valueError ("Failed to construct model " ++ pyStrip m0)),
        defaultEvents config_file ++ vdbEvents (startVdb env cfg config_file)
          ++ retEvents (startRet env cfg config_file)
          ++ [.attemptModel, .modelRegistryLookup (pyStrip m0)]) := by
  simp [start, hm, hc, hmem, hko]

theorem start_eq_unknown (env : Env) (cfg : Config)
    (config_file : Option String) (m0 : String) (hm : cfg.model = some m0)
    (hc : pyStrip m0 ≠ CUSTOM_MODEL_KEY_NAME)
    (hmem : pyStrip m0 ∉ env.availableModelMaps) :
    start env cfg config_file =
      (.raisedGenAIStack unknownPrebuiltMsg,
        defaultEvents config_file ++ vdbEvents (startVdb env cfg config_file)
          ++ retEvents (startRet env cfg config_file)
          ++ [.attemptModel, .modelRegistryLookup (pyStrip m0)]) := by
  simp [start, hm, hc, hmem]

/-- Every run of `start` has a trace of the shape: defaulting events, then
the vectordb fragment, then the retriever fragment, then the model
resolution attempt followed only by model-dispatch events. -/
theorem start_trace (env : Env) (cfg : Config) (config_file : Option String) :
    ∃ t : List Event,
      (start env cfg config_file).2
        = defaultEvents config_file ++ vdbEvents (startVdb env cfg config_file)
          ++ retEvents (startRet env cfg config_file) ++ (Event.attemptModel :: t)
      ∧ ∀ e ∈ t, e.kind = EKind.kModelLookup ∨ e.kind = EKind.kCustomCall
          ∨ e.kind = EKind.kHttpCall := by
  rcases hm : cfg.model with _ | m0
  · exact ⟨[], by rw [start_eq_missing env cfg config_file hm], by simp⟩
  · by_cases hc : pyStrip m0 = CUSTOM_MODEL_KEY_NAME
    · refine ⟨_, by rw [start_eq_custom env cfg config_file m0 hm hc], ?_⟩
      intro e he
      fin_cases he <;> simp [Event.kind]
    · by_cases hmem : pyStrip m0 ∈ env.availableModelMaps
      · rcases hok : env.modelConstructOk (pyStrip m0) with _ | _
        · refine ⟨_, by
            rw [start_eq_prebuilt_fail env cfg config_file m0 hm hc hmem hok], ?_⟩
          intro e he
          fin_cases he <;> simp [Event.kind]
        · refine ⟨_, by
            rw [start_eq_prebuilt_ok env cfg config_file m0 hm hc hmem hok], ?_⟩
          intro e he
          fin_cases he <;> simp [Event.kind]
      · refine ⟨_, by rw [start_eq_unknown env cfg config_file m0 hm hc hmem], ?_⟩
        intro e he
        fin_cases he <;> simp [Event.kind]

theorem countKind_tail_zero (k : EKind) (t : List Event)
    (hk : ∀ e ∈ t, e.kind = EKind.kModelLookup ∨ e.kind = EKind.kCustomCall
      ∨ e.kind = EKind.kHttpCall)
    (h1 : k ≠ EKind.kModelLookup) (h2 : k ≠ EKind.kCustomCall)
    (h3 : k ≠ EKind.kHttpCall) : countKind k t = 0 := by
  apply countKind_eq_zero_of_forall
  intro e he
  rcases hk e he with h | h | h <;> rw [h]
  · exact Ne.symm h1
  · exact Ne.symm h2
  · exact Ne.symm h3

theorem countKind_pre (k : EKind) (cf : Option String)
    (v : Except PyErr VectorDB) (r : Except PyErr Retriever)
    (h0 : k ≠ EKind.kDefault) (h1 : k ≠ EKind.kVdbAttempt)
    (h2 : k ≠ EKind.kVdbWarn) (h3 : k ≠ EKind.kRetAttempt)
    (h4 : k ≠ EKind.kRetWarn) :
    countKind k (defaultEvents cf ++ vdbEvents v ++ retEvents r) = 0 := by
  simp [countKind_append, countKind_defaultEvents k cf h0,
    countKind_vdbEvents_other v k h1 h2, countKind_retEvents_other r k h3 h4]

theorem start_count_vdbAttempt (env : Env) (cfg : Config)
    (config_file : Option String) :
    countKind EKind.kVdbAttempt (start env cfg config_file).2 = 1 := by
  obtain ⟨t, ht, hk⟩ := start_trace env cfg config_file
  rw [ht]
  simp [countKind_append, countKind_cons, Event.kind,
    countKind_defaultEvents EKind.kVdbAttempt config_file (by decide),
    countKind_vdbEvents_attempt,
    countKind_retEvents_other (startRet env cfg config_file) EKind.kVdbAttempt
      (by decide) (by decide),
    countKind_tail_zero EKind.kVdbAttempt t hk (by decide) (by decide) (by decide)]

theorem start_count_retAttempt (env : Env) (cfg : Config)
    (config_file : Option String) :
    countKind EKind.kRetAttempt (start env cfg config_file).2 = 1 := by
  obtain ⟨t, ht, hk⟩ := start_trace env cfg config_file
  rw [ht]
  simp [countKind_append, countKind_cons, Event.kind,
    countKind_defaultEvents EKind.kRetAttempt config_file (by decide),
    countKind_vdbEvents_other (startVdb env cfg config_file) EKind.kRetAttempt
      (by decide) (by decide),
    countKind_retEvents_attempt,
    countKind_tail_zero EKind.kRetAttempt t hk (by decide) (by decide) (by decide)]

theorem start_count_modelAttempt (env : Env) (cfg : Config)
    (config_file : Option String) :
    countKind EKind.kModelAttempt (start env cfg config_file).2 = 1 := by
  obtain ⟨t, ht, hk⟩ := start_trace env cfg config_file
  rw [ht]
  simp [countKind_append, countKind_cons, Event.kind,
    countKind_defaultEvents EKind.kModelAttempt config_file (by decide),
    countKind_vdbEvents_other (startVdb env cfg config_file) EKind.kModelAttempt
      (by decide) (by decide),
    countKind_retEvents_other (startRet env cfg config_file) EKind.kModelAttempt
      (by decide) (by decide),
    countKind_tail_zero EKind.kModelAttempt t hk (by decide) (by decide) (by decide)]

/-! ### Concrete instances for witnesses -/

/-- A concrete registry environment: one vectordb, one retriever, one
prebuilt model, all constructors succeeding. -/
def envA : Env where
  vectordbRegistered := fun n => n == "chromadb"
  vectordbConstructOk := fun _ => true
  retrieverRegistered := fun n => n == "basic"
  retrieverConstructOk := fun _ => true
  availableModelMaps := ["gpt3.5"]
  modelConstructOk := fun _ => true

/-- A config whose model identifier is the custom sentinel with surrounding
whitespace. -/
def cfgCustom : Config where
  vectordb := some "chromadb"
  retriever := some "basic"
  model := some " custom "

/-- A config whose model identifier is neither custom nor prebuilt. -/
def cfgUnknown : Config where
  vectordb := some "chromadb"
  retriever := some "basic"
  model := some "gpt9000"

/-- A config whose vectordb section names an unregistered identifier. -/
def cfgBadVdb : Config where
  vectordb := some "weaviate"
  retriever := some "basic"
  model := some "gpt3.5"

/-- A config missing the retriever section. -/
def cfgNoRet : Config where
  vectordb := some "chromadb"
  retriever := none
  model := some "gpt3.5"

/-! ### Claims -/

/-- C1: when the model section identifier (stripped) equals the custom
sentinel, `start` performs no registry model lookup (no prebuilt-set
membership test, no model construction, no server start) and calls the
custom-model path exactly once, passing the config loader, the resolved
(possibly none) retriever and the config file reference, then returns
that call as its outcome. -/
theorem start_custom_path_bypasses_registry (env : Env) (cfg : Config)
    (config_file : Option String) (m0 : String) (hm : cfg.model = some m0)
    (hc : pyStrip m0 = CUSTOM_MODEL_KEY_NAME) :
    (start env cfg config_file).1
      = StartOutcome.customRun
          { configFile := resolveStartConfigFile config_file, doc := cfg }
          (okOf (startRet env cfg config_file))
          (resolveStartConfigFile config_file)
    ∧ countKind EKind.kCustomCall (start env cfg config_file).2 = 1
    ∧ Event.callRunCustomModel
        { configFile := resolveStartConfigFile config_file, doc := cfg }
        (okOf (startRet env cfg config_file))
        (resolveStartConfigFile config_file) ∈ (start env cfg config_file).2
    ∧ countKind EKind.kModelLookup (start env cfg config_file).2 = 0
    ∧ countKind EKind.kHttpCall (start env cfg config_file).2 = 0 := by
  rw [start_eq_custom env cfg config_file m0 hm hc]
  refine ⟨rfl, ?_, ?_, ?_, ?_⟩
  · rw [countKind_append, countKind_pre EKind.kCustomCall config_file
      (startVdb env cfg config_file) (startRet env cfg config_file)
      (by decide) (by decide) (by decide) (by decide) (by decide)]
    simp [countKind, Event.kind]
  · simp
  · rw [countKind_append, countKind_pre EKind.kModelLookup config_file
      (startVdb env cfg config_file) (startRet env cfg config_file)
      (by decide) (by decide) (by decide) (by decide) (by decide)]
    simp [countKind, Event.kind]
  · rw [countKind_append, countKind_pre EKind.kHttpCall config_file
      (startVdb env cfg config_file) (startRet env cfg config_file)
      (by decide) (by decide) (by decide) (by decide) (by decide)]
    simp [countKind, Event.kind]

/-- Witness for C1 at a concrete input. -/
theorem start_custom_path_bypasses_registry_witness :
    (start envA cfgCustom (some "stack.json")).1
      = StartOutcome.customRun
          { configFile := resolveStartConfigFile (some "stack.json"),
            doc := cfgCustom }
          (okOf (startRet envA cfgCustom (some "stack.json")))
          (resolveStartConfigFile (some "stack.json"))
    ∧ countKind EKind.kCustomCall (start envA cfgCustom (some "stack.json")).2 = 1
    ∧ Event.callRunCustomModel
        { configFile := resolveStartConfigFile (some "stack.json"),
          doc := cfgCustom }
        (okOf (startRet envA cfgCustom (some "stack.json")))
        (resolveStartConfigFile (some "stack.json"))
        ∈ (start envA cfgCustom (some "stack.json")).2
    ∧ countKind EKind.kModelLookup (start envA cfgCustom (some "stack.json")).2 = 0
    ∧ countKind EKind.kHttpCall (start envA cfgCustom (some "stack.json")).2 = 0 :=
  start_custom_path_bypasses_registry envA cfgCustom (some "stack.json")
    " custom " rfl (by decide)

/-- C2: when the model section identifier (stripped) is neither the custom
sentinel nor in the prebuilt model set, `start` raises the
`GenAIStackException` for an unknown prebuilt model, constructs no model and
starts no server (and does not invoke the custom path either). -/
theorem start_unknown_prebuilt_fatal (env : Env) (cfg : Config)
    (config_file : Option String) (m0 : String) (hm : cfg.model = some m0)
    (hc : pyStrip m0 ≠ CUSTOM_MODEL_KEY_NAME)
    (hmem : pyStrip m0 ∉ env.availableModelMaps) :
    (start env cfg config_file).1 = StartOutcome.raisedGenAIStack unknownPrebuiltMsg
    ∧ countKind EKind.kHttpCall (start env cfg config_file).2 = 0
    ∧ countKind EKind.kCustomCall (start env cfg config_file).2 = 0
    ∧ ∀ mdl : Model, (start env cfg config_file).1 ≠ StartOutcome.serverStarted mdl := by
  rw [start_eq_unknown env cfg config_file m0 hm hc hmem]
  refine ⟨rfl, ?_, ?_, ?_⟩
  · rw [countKind_append, countKind_pre EKind.kHttpCall config_file
      (startVdb env cfg config_file) (startRet env cfg config_file)
      (by decide) (by decide) (by decide) (by decide) (by decide)]
    simp [countKind, Event.kind]
  · rw [countKind_append, countKind_pre EKind.kCustomCall config_file
      (startVdb env cfg config_file) (startRet env cfg config_file)
      (by decide) (by decide) (by decide) (by decide) (by decide)]
    simp [countKind, Event.kind]
  · intro mdl
    simp

/-- Witness for C2 at a concrete input. -/
theorem start_unknown_prebuilt_fatal_witness :
    (start envA cfgUnknown (some "stack.json")).1
      = StartOutcome.raisedGenAIStack unknownPrebuiltMsg
    ∧ countKind EKind.kHttpCall (start envA cfgUnknown (some "stack.json")).2 = 0
    ∧ countKind EKind.kCustomCall (start envA cfgUnknown (some "stack.json")).2 = 0
    ∧ ∀ mdl : Model,
        (start envA cfgUnknown (some "stack.json")).1
          ≠ StartOutcome.serverStarted mdl :=
  start_unknown_prebuilt_fatal envA cfgUnknown (some "stack.json") "gpt9000"
    rfl (by decide) (by decide)

/-! ### Failure characterizations of the resolution steps -/

theorem tryVectordb_fail (env : Env) (sec : Option String) (cf : Option String)
    (h : sec = none ∨ ∃ n, sec = some n ∧ (env.vectordbRegistered n = false
      ∨ env.vectordbConstructOk n = false)) :
    ∃ e, tryVectordb env sec cf = Except.error e := by
  rcases h with h | ⟨n, hn, hf⟩
  · subst h
    exact ⟨_, rfl⟩
  · subst hn
    rcases hf with hf | hf
    · exact ⟨PyErr.valueError ("Unknown vectordb " ++ n), by simp [tryVectordb, hf]⟩
    · rcases hr : env.vectordbRegistered n with _ | _
      · exact ⟨PyErr.valueError ("Unknown vectordb " ++ n),
          by simp [tryVectordb, hr]⟩
      · exact ⟨PyErr.valueError ("Failed to construct vectordb " ++ n),
          by simp [tryVectordb, hr, hf]⟩

theorem tryRetriever_fail (env : Env) (sec : Option String) (cf : Option String)
    (vdb : Option VectorDB)
    (h : sec = none ∨ ∃ n, sec = some n ∧ (env.retrieverRegistered n = false
      ∨ env.retrieverConstructOk n = false)) :
    ∃ e, tryRetriever env sec cf vdb = Except.error e := by
  rcases h with h | ⟨n, hn, hf⟩
  · subst h
    exact ⟨_, rfl⟩
  · subst hn
    rcases hf with hf | hf
    · exact ⟨PyErr.valueError ("Unknown retriever " ++ n),
        by simp [tryRetriever, hf]⟩
    · rcases hr : env.retrieverRegistered n with _ | _
      · exact ⟨PyErr.valueError ("Unknown retriever " ++ n),
          by simp [tryRetriever, hr]⟩
      · exact ⟨PyErr.valueError ("Failed to construct retriever " ++ n),
          by simp [tryRetriever, hr, hf]⟩

theorem tryRetriever_ok_vectordb (env : Env) (sec : Option String)
    (cf : Option String) (vdb : Option VectorDB) (rv : Retriever)
    (h : tryRetriever env sec cf vdb = Except.ok rv) : rv.vectordb = vdb := by
  rcases sec with _ | n
  · simp [tryRetriever] at h
  · simp only [tryRetriever] at h
    split at h
    · split at h
      · cases h
        rfl
      · cases h
    · cases h

/-- In every branch of `start`, the retriever handed to the dispatched model
path is the one resolved by the retriever step. -/
theorem start_outcome_retriever (env : Env) (cfg : Config)
    (config_file : Option String) :
    (∀ l r c, (start env cfg config_file).1 = StartOutcome.customRun l r c →
      r = okOf (startRet env cfg config_file))
    ∧ ∀ mdl, (start env cfg config_file).1 = StartOutcome.serverStarted mdl →
      mdl.retriever = okOf (startRet env cfg config_file) := by
  rcases hm : cfg.model with _ | m0
  · rw [start_eq_missing env cfg config_file hm]
    constructor
    · intro l r c h
      cases h
    · intro mdl h
      cases h
  · by_cases hc : pyStrip m0 = CUSTOM_MODEL_KEY_NAME
    · rw [start_eq_custom env cfg config_file m0 hm hc]
      constructor
      · intro l r c h
        injection h with h1 h2 h3
        exact h2.symm
      · intro mdl h
        cases h
    · by_cases hmem : pyStrip m0 ∈ env.availableModelMaps
      · rcases hok : env.modelConstructOk (pyStrip m0) with _ | _
        · rw [start_eq_prebuilt_fail env cfg config_file m0 hm hc hmem hok]
          constructor
          · intro l r c h
            cases h
          · intro mdl h
            cases h
        · rw [start_eq_prebuilt_ok env cfg config_file m0 hm hc hmem hok]
          constructor
          · intro l r c h
            cases h
          · intro mdl h
            injection h with h1
            rw [← h1]
      · rw [start_eq_unknown env cfg config_file m0 hm hc hmem]
        constructor
        · intro l r c h
          cases h
        · intro mdl h
          cases h

/-- C3: when the vectordb section is missing, unregistered, or its
construction fails, `start` logs a warning, resolves VectorStore to `none`,
still performs the retriever and model resolution steps (it does not
abort), and the retriever step receives that `none` vectordb. -/
theorem start_vectordb_degrades_to_none (env : Env) (cfg : Config)
    (config_file : Option String)
    (h : cfg.vectordb = none ∨ ∃ n, cfg.vectordb = some n
      ∧ (env.vectordbRegistered n = false ∨ env.vectordbConstructOk n = false)) :
    okOf (startVdb env cfg config_file) = none
    ∧ (∃ msg, Event.warnVectordb msg ∈ (start env cfg config_file).2)
    ∧ countKind EKind.kRetAttempt (start env cfg config_file).2 = 1
    ∧ countKind EKind.kModelAttempt (start env cfg config_file).2 = 1
    ∧ ∀ rv : Retriever, startRet env cfg config_file = Except.ok rv →
        rv.vectordb = none := by
  obtain ⟨e, he⟩ := tryVectordb_fail env cfg.vectordb
    (some (resolveStartConfigFile config_file)) h
  have hv : startVdb env cfg config_file = Except.error e := he
  refine ⟨by simp [hv, okOf], ?_, start_count_retAttempt env cfg config_file,
    start_count_modelAttempt env cfg config_file, ?_⟩
  · obtain ⟨t, ht, hk⟩ := start_trace env cfg config_file
    refine ⟨e.msg, ?_⟩
    rw [ht, hv]
    simp [vdbEvents]
  · intro rv hrv
    simp only [startRet] at hrv
    have hd := tryRetriever_ok_vectordb env cfg.retriever
      (some (resolveStartConfigFile config_file))
      (okOf (startVdb env cfg config_file)) rv hrv
    rw [hd, hv]
    rfl

/-- Witness for C3 at a concrete input: the vectordb identifier
"weaviate" is not registered. -/
theorem start_vectordb_degrades_to_none_witness :
    okOf (startVdb envA cfgBadVdb (some "stack.json")) = none
    ∧ (∃ msg, Event.warnVectordb msg ∈ (start envA cfgBadVdb (some "stack.json")).2)
    ∧ countKind EKind.kRetAttempt (start envA cfgBadVdb (some "stack.json")).2 = 1
    ∧ countKind EKind.kModelAttempt (start envA cfgBadVdb (some "stack.json")).2 = 1
    ∧ ∀ rv : Retriever, startRet envA cfgBadVdb (some "stack.json") = Except.ok rv →
        rv.vectordb = none :=
  start_vectordb_degrades_to_none envA cfgBadVdb (some "stack.json")
    (Or.inr ⟨"weaviate", rfl, Or.inl (by decide)⟩)

/-- C4: when the retriever section is missing, unregistered, or its
construction fails, `start` logs a warning, resolves Retriever to `none`,
still performs the model resolution step, and whichever model path is
dispatched (custom or prebuilt) receives that `none` retriever. -/
theorem start_retriever_degrades_to_none (env : Env) (cfg : Config)
    (config_file : Option String)
    (h : cfg.retriever = none ∨ ∃ n, cfg.retriever = some n
      ∧ (env.retrieverRegistered n = false ∨ env.retrieverConstructOk n = false)) :
    okOf (startRet env cfg config_file) = none
    ∧ (∃ msg, Event.warnRetriever msg ∈ (start env cfg config_file).2)
    ∧ countKind EKind.kModelAttempt (start env cfg config_file).2 = 1
    ∧ (∀ l r c, (start env cfg config_file).1 = StartOutcome.customRun l r c →
        r = none)
    ∧ ∀ mdl, (start env cfg config_file).1 = StartOutcome.serverStarted mdl →
        mdl.retriever = none := by
  obtain ⟨e, he⟩ := tryRetriever_fail env cfg.retriever
    (some (resolveStartConfigFile config_file))
    (okOf (startVdb env cfg config_file)) h
  have hr : startRet env cfg config_file = Except.error e := he
  have hnone : okOf (startRet env cfg config_file) = none := by simp [hr, okOf]
  obtain ⟨hcu, hsv⟩ := start_outcome_retriever env cfg config_file
  refine ⟨hnone, ?_, start_count_modelAttempt env cfg config_file,
    fun l r c hx => by rw [hcu l r c hx, hnone],
    fun mdl hx => by rw [hsv mdl hx, hnone]⟩
  obtain ⟨t, ht, hk⟩ := start_trace env cfg config_file
  refine ⟨e.msg, ?_⟩
  rw [ht, hr]
  simp [retEvents]

/-- Witness for C4 at a concrete input: the retriever section is absent. -/
theorem start_retriever_degrades_to_none_witness :
    okOf (startRet envA cfgNoRet (some "stack.json")) = none
    ∧ (∃ msg, Event.warnRetriever msg ∈ (start envA cfgNoRet (some "stack.json")).2)
    ∧ countKind EKind.kModelAttempt (start envA cfgNoRet (some "stack.json")).2 = 1
    ∧ (∀ l r c, (start envA cfgNoRet (some "stack.json")).1
        = StartOutcome.customRun l r c → r = none)
    ∧ ∀ mdl, (start envA cfgNoRet (some "stack.json")).1
        = StartOutcome.serverStarted mdl → mdl.retriever = none :=
  start_retriever_degrades_to_none envA cfgNoRet (some "stack.json")
    (Or.inl rfl)

/-- C5: when vectordb lookup or construction fails, `etl` re-raises the
original error after logging (warning plus default-config hint) and never
invokes the ETL loader; conversely the loader is invoked only with the
config file and a successfully constructed vectordb. -/
theorem etl_vectordb_failure_fatal (env : Env) (cfg : Config)
    (config_file : Option String) :
    (∀ e, tryVectordb env cfg.vectordb config_file = Except.error e →
      (etl env cfg config_file).1 = EtlOutcome.raised e
      ∧ (∃ msg, Event.warnVectordb msg ∈ (etl env cfg config_file).2)
      ∧ ∀ c v, Event.callRunEtlLoader c v ∉ (etl env cfg config_file).2)
    ∧ ∀ c v, Event.callRunEtlLoader c v ∈ (etl env cfg config_file).2 →
        c = config_file ∧ tryVectordb env cfg.vectordb config_file = Except.ok v := by
  constructor
  · intro e he
    refine ⟨by simp [etl, he], ⟨e.msg, by simp [etl, he]⟩, ?_⟩
    intro c v hcv
    simp [etl, he] at hcv
  · intro c v hcv
    rcases hr : tryVectordb env cfg.vectordb config_file with e | v'
    · simp [etl, hr] at hcv
    · simp [etl, hr] at hcv
      exact ⟨hcv.1, by rw [hcv.2]⟩

/-- Witness for C5 at a concrete input: etl with an unregistered vectordb
identifier surfaces the original lookup error and never calls the loader. -/
theorem etl_vectordb_failure_fatal_witness :
    (etl envA cfgBadVdb (some "data.json")).1
      = EtlOutcome.raised (PyErr.valueError ("Unknown vectordb " ++ "weaviate"))
    ∧ (∃ msg, Event.warnVectordb msg ∈ (etl envA cfgBadVdb (some "data.json")).2)
    ∧ ∀ c v, Event.callRunEtlLoader c v ∉ (etl envA cfgBadVdb (some "data.json")).2 :=
  (etl_vectordb_failure_fatal envA cfgBadVdb (some "data.json")).1
    (PyErr.valueError ("Unknown vectordb " ++ "weaviate")) rfl

/-- C6 counterexample: the claim says both `start` and `etl` default the
config file when it is omitted; but `etl` invoked without a config file
performs no defaulting and hands `none` straight to the loader and the
vectordb constructor. -/
theorem etl_no_default_config_counterexample :
    Event.createdDefaultConfig ∉ (etl envA cfgCustom none).2
    ∧ (etl envA cfgCustom none).1
        = EtlOutcome.completed none { name := "chromadb", config := none } := by
  decide

/-- C6 amended: only `start` defaults an omitted config file to the
generated default model JSON file before loading; `etl` performs no
defaulting and passes the absent config file through unchanged. -/
theorem start_defaults_config_etl_does_not (env : Env) (cfg : Config) :
    Event.createdDefaultConfig ∈ (start env cfg none).2
    ∧ resolveStartConfigFile none = DEFAULT_MODEL_JSON
    ∧ Event.createdDefaultConfig ∉ (etl env cfg none).2
    ∧ ∀ c v, Event.callRunEtlLoader c v ∈ (etl env cfg none).2 → c = none := by
  refine ⟨?_, rfl, ?_, ?_⟩
  · obtain ⟨t, ht, hk⟩ := start_trace env cfg none
    rw [ht]
    simp [defaultEvents]
  · rcases hr : tryVectordb env cfg.vectordb none with e | v <;> simp [etl, hr]
  · intro c v hcv
    rcases hr : tryVectordb env cfg.vectordb none with e | v'
    · simp [etl, hr] at hcv
    · simp [etl, hr] at hcv
      exact hcv.1

/-- Witness for the amended C6 at a concrete input. -/
theorem start_defaults_config_etl_does_not_witness :
    Event.createdDefaultConfig ∈ (start envA cfgCustom none).2
    ∧ Event.createdDefaultConfig ∉ (etl envA cfgCustom none).2 := by
  have h := start_defaults_config_etl_does_not envA cfgCustom
  exact ⟨h.1, h.2.2.1⟩

/-- C7: every `start` invocation resolves vectordb, then retriever, then
model, in that order, each step exactly once (no retry loop); the retriever
is constructed with the step-1 vectordb as dependency and the dispatched
model path receives the step-2 retriever. -/
theorem start_sequential_resolution_once (env : Env) (cfg : Config)
    (config_file : Option String) :
    (∃ t0 t1 t2 t3 : List Event,
      (start env cfg config_file).2 = t0 ++ t1 ++ t2 ++ t3
      ∧ countKind EKind.kVdbAttempt t0 = 0 ∧ countKind EKind.kRetAttempt t0 = 0
      ∧ countKind EKind.kModelAttempt t0 = 0
      ∧ countKind EKind.kVdbAttempt t1 = 1 ∧ countKind EKind.kRetAttempt t1 = 0
      ∧ countKind EKind.kModelAttempt t1 = 0
      ∧ countKind EKind.kVdbAttempt t2 = 0 ∧ countKind EKind.kRetAttempt t2 = 1
      ∧ countKind EKind.kModelAttempt t2 = 0
      ∧ countKind EKind.kVdbAttempt t3 = 0 ∧ countKind EKind.kRetAttempt t3 = 0
      ∧ countKind EKind.kModelAttempt t3 = 1)
    ∧ countKind EKind.kVdbAttempt (start env cfg config_file).2 = 1
    ∧ countKind EKind.kRetAttempt (start env cfg config_file).2 = 1
    ∧ countKind EKind.kModelAttempt (start env cfg config_file).2 = 1
    ∧ (∀ rv : Retriever, startRet env cfg config_file = Except.ok rv →
        rv.vectordb = okOf (startVdb env cfg config_file))
    ∧ (∀ l r c, (start env cfg config_file).1 = StartOutcome.customRun l r c →
        r = okOf (startRet env cfg config_file))
    ∧ ∀ mdl, (start env cfg config_file).1 = StartOutcome.serverStarted mdl →
        mdl.retriever = okOf (startRet env cfg config_file) := by
  obtain ⟨t, ht, hk⟩ := start_trace env cfg config_file
  obtain ⟨hcu, hsv⟩ := start_outcome_retriever env cfg config_file
  refine ⟨⟨defaultEvents config_file, vdbEvents (startVdb env cfg config_file),
      retEvents (startRet env cfg config_file), Event.attemptModel :: t,
      ht, ?_, ?_, ?_, ?_, ?_, ?_, ?_, ?_, ?_, ?_, ?_, ?_⟩,
    start_count_vdbAttempt env cfg config_file,
    start_count_retAttempt env cfg config_file,
    start_count_modelAttempt env cfg config_file, ?_, hcu, hsv⟩
  · exact countKind_defaultEvents _ config_file (by decide)
  · exact countKind_defaultEvents _ config_file (by decide)
  · exact countKind_defaultEvents _ config_file (by decide)
  · exact countKind_vdbEvents_attempt _
  · exact countKind_vdbEvents_other _ _ (by decide) (by decide)
  · exact countKind_vdbEvents_other _ _ (by decide) (by decide)
  · exact countKind_retEvents_other _ _ (by decide) (by decide)
  · exact countKind_retEvents_attempt _
  · exact countKind_retEvents_other _ _ (by decide) (by decide)
  · rw [countKind_cons,
      countKind_tail_zero EKind.kVdbAttempt t hk (by decide) (by decide) (by decide)]
    simp [Event.kind]
  · rw [countKind_cons,
      countKind_tail_zero EKind.kRetAttempt t hk (by decide) (by decide) (by decide)]
    simp [Event.kind]
  · rw [countKind_cons,
      countKind_tail_zero EKind.kModelAttempt t hk (by decide) (by decide) (by decide)]
    simp [Event.kind]
  · intro rv hrv
    simp only [startRet] at hrv
    exact tryRetriever_ok_vectordb env cfg.retriever
      (some (resolveStartConfigFile config_file))
      (okOf (startVdb env cfg config_file)) rv hrv

/-- Witness for C7 at a concrete input. -/
theorem start_sequential_resolution_once_witness :
    countKind EKind.kVdbAttempt (start envA cfgCustom (some "stack.json")).2 = 1
    ∧ countKind EKind.kRetAttempt (start envA cfgCustom (some "stack.json")).2 = 1
    ∧ countKind EKind.kModelAttempt (start envA cfgCustom (some "stack.json")).2 = 1 := by
  have h := start_sequential_resolution_once envA cfgCustom (some "stack.json")
  exact ⟨h.2.1, h.2.2.1, h.2.2.2.1⟩

/-! ### Structural outcome patterns -/

/-- Which model path a `start` run selected. -/
inductive PathTag where
  | custom | prebuilt | fatalUnknown | fatalOther
  deriving DecidableEq

/-- The path tag of a `start` outcome. -/
def outcomeTag : StartOutcome → PathTag
  | .customRun _ _ _ => .custom
  | .serverStarted _ => .prebuilt
  | .raisedGenAIStack _ => .fatalUnknown
  | .uncaughtError _ => .fatalOther

/-- The structural pattern of a `start` run: whether the vectordb step and
the retriever step completed without degradation (no warning logged), and
which model path was selected. -/
def runPattern (res : StartOutcome × List Event) : Bool × Bool × PathTag :=
  (countKind EKind.kVdbWarn res.2 == 0, countKind EKind.kRetWarn res.2 == 0,
    outcomeTag res.1)

/-- Whether the vectordb step of a given registry succeeds on a section. -/
def vdbResolves (env : Env) (sec : Option String) : Bool :=
  match sec with
  | none => false
  | some n => env.vectordbRegistered n && env.vectordbConstructOk n

/-- Whether the retriever step of a given registry succeeds on a section. -/
def retResolves (env : Env) (sec : Option String) : Bool :=
  match sec with
  | none => false
  | some n => env.retrieverRegistered n && env.retrieverConstructOk n

theorem tryVectordb_resolves (env : Env) (sec : Option String)
    (c : Option String) :
    (match tryVectordb env sec c with | .ok _ => true | .error _ => false)
      = vdbResolves env sec := by
  rcases sec with _ | n
  · rfl
  · rcases hr : env.vectordbRegistered n with _ | _ <;>
      rcases hc : env.vectordbConstructOk n with _ | _ <;>
      simp [tryVectordb, vdbResolves, hr, hc]

theorem tryRetriever_resolves (env : Env) (sec : Option String)
    (c : Option String) (vdb : Option VectorDB) :
    (match tryRetriever env sec c vdb with | .ok _ => true | .error _ => false)
      = retResolves env sec := by
  rcases sec with _ | n
  · rfl
  · rcases hr : env.retrieverRegistered n with _ | _ <;>
      rcases hc : env.retrieverConstructOk n with _ | _ <;>
      simp [tryRetriever, retResolves, hr, hc]

theorem start_count_vdbWarn (env : Env) (cfg : Config) (cf : Option String) :
    countKind EKind.kVdbWarn (start env cfg cf).2
      = if vdbResolves env cfg.vectordb then 0 else 1 := by
  obtain ⟨t, ht, hk⟩ := start_trace env cfg cf
  rw [ht, ← tryVectordb_resolves env cfg.vectordb
    (some (resolveStartConfigFile cf))]
  rcases hv : startVdb env cfg cf with e | v
  · rw [show tryVectordb env cfg.vectordb (some (resolveStartConfigFile cf))
      = startVdb env cfg cf from rfl, hv]
    simp [countKind_append, countKind_cons, countKind_nil, Event.kind, vdbEvents,
      countKind_defaultEvents EKind.kVdbWarn cf (by decide),
      countKind_retEvents_other (startRet env cfg cf) EKind.kVdbWarn
        (by decide) (by decide),
      countKind_tail_zero EKind.kVdbWarn t hk (by decide) (by decide) (by decide)]
  · rw [show tryVectordb env cfg.vectordb (some (resolveStartConfigFile cf))
      = startVdb env cfg cf from rfl, hv]
    simp [countKind_append, countKind_cons, countKind_nil, Event.kind, vdbEvents,
      countKind_defaultEvents EKind.kVdbWarn cf (by decide),
      countKind_retEvents_other (startRet env cfg cf) EKind.kVdbWarn
        (by decide) (by decide),
      countKind_tail_zero EKind.kVdbWarn t hk (by decide) (by decide) (by decide)]

theorem start_count_retWarn (env : Env) (cfg : Config) (cf : Option String) :
    countKind EKind.kRetWarn (start env cfg cf).2
      = if retResolves env cfg.retriever then 0 else 1 := by
  obtain ⟨t, ht, hk⟩ := start_trace env cfg cf
  rw [ht, ← tryRetriever_resolves env cfg.retriever
    (some (resolveStartConfigFile cf)) (okOf (startVdb env cfg cf))]
  rcases hv : startRet env cfg cf with e | v
  · rw [show tryRetriever env cfg.retriever (some (resolveStartConfigFile cf))
      (okOf (startVdb env cfg cf)) = startRet env cfg cf from rfl, hv]
    simp [countKind_append, countKind_cons, countKind_nil, Event.kind, retEvents,
      countKind_defaultEvents EKind.kRetWarn cf (by decide),
      countKind_vdbEvents_other (startVdb env cfg cf) EKind.kRetWarn
        (by decide) (by decide),
      countKind_tail_zero EKind.kRetWarn t hk (by decide) (by decide) (by decide)]
  · rw [show tryRetriever env cfg.retriever (some (resolveStartConfigFile cf))
      (okOf (startVdb env cfg cf)) = startRet env cfg cf from rfl, hv]
    simp [countKind_append, countKind_cons, countKind_nil, Event.kind, retEvents,
      countKind_defaultEvents EKind.kRetWarn cf (by decide),
      countKind_vdbEvents_other (startVdb env cfg cf) EKind.kRetWarn
        (by decide) (by decide),
      countKind_tail_zero EKind.kRetWarn t hk (by decide) (by decide) (by decide)]

/-- The model-path selection as a function of registry and model section. -/
def modelTag (env : Env) (sec : Option String) : PathTag :=
  match sec with
  | none => .fatalOther
  | some m0 =>
    if pyStrip m0 = CUSTOM_MODEL_KEY_NAME then .custom
    else if pyStrip m0 ∈ env.availableModelMaps then
      if env.modelConstructOk (pyStrip m0) then .prebuilt else .fatalOther
    else .fatalUnknown

theorem start_outcomeTag (env : Env) (cfg : Config) (cf : Option String) :
    outcomeTag (start env cfg cf).1 = modelTag env cfg.model := by
  rcases hm : cfg.model with _ | m0
  · rw [start_eq_missing env cfg cf hm]
    rfl
  · by_cases hc : pyStrip m0 = CUSTOM_MODEL_KEY_NAME
    · rw [start_eq_custom env cfg cf m0 hm hc]
      simp [outcomeTag, modelTag, hc]
    · by_cases hmem : pyStrip m0 ∈ env.availableModelMaps
      · rcases hok : env.modelConstructOk (pyStrip m0) with _ | _
        · rw [start_eq_prebuilt_fail env cfg cf m0 hm hc hmem hok]
          simp [outcomeTag, modelTag, hc, hmem, hok]
        · rw [start_eq_prebuilt_ok env cfg cf m0 hm hc hmem hok]
          simp [outcomeTag, modelTag, hc, hmem, hok]
      · rw [start_eq_unknown env cfg cf m0 hm hc hmem]
        simp [outcomeTag, modelTag, hc, hmem]

/-- The structural pattern of a `start` run depends only on the registry
environment and the configuration document. -/
theorem runPattern_start (env : Env) (cfg : Config) (cf : Option String) :
    runPattern (start env cfg cf)
      = (vdbResolves env cfg.vectordb, retResolves env cfg.retriever,
          modelTag env cfg.model) := by
  unfold runPattern
  rw [start_count_vdbWarn env cfg cf, start_count_retWarn env cfg cf,
    start_outcomeTag env cfg cf]
  rcases vdbResolves env cfg.vectordb with _ | _ <;>
    rcases retResolves env cfg.retriever with _ | _ <;> simp

/-- C8: with a stable registry, resolving the same configuration document
in two separate invocations yields structurally equivalent outcomes: the
same ok/degraded pattern for VectorStore and Retriever and the same
model-path selection (even if the config file reference differs between
the invocations). -/
theorem start_resolution_idempotent (env : Env) (cfg : Config)
    (cf1 cf2 : Option String) :
    runPattern (start env cfg cf1) = runPattern (start env cfg cf2) := by
  rw [runPattern_start env cfg cf1, runPattern_start env cfg cf2]

/-! ### Whitespace stripping of the model identifier -/

theorem dropWhile_all {α : Type} (p : α → Bool) (l1 l2 : List α)
    (h : ∀ c ∈ l1, p c = true) :
    (l1 ++ l2).dropWhile p = l2.dropWhile p := by
  induction l1 with
  | nil => simp
  | cons a t ih =>
    have ha : p a = true := h a (by simp)
    simp only [List.cons_append, List.dropWhile_cons, ha, if_true]
    exact ih fun c hc => h c (by simp [hc])

theorem dropWhile_nil_of_all {α : Type} (p : α → Bool) (l : List α)
    (h : ∀ c ∈ l, p c = true) : l.dropWhile p = [] := by
  have := dropWhile_all p l [] h
  simpa using this

theorem dropWhile_append_split {α : Type} (p : α → Bool) (s t : List α) :
    (s ++ t).dropWhile p
      = if (s.dropWhile p).isEmpty then t.dropWhile p else s.dropWhile p ++ t := by
  induction s with
  | nil => simp
  | cons a s ih =>
    by_cases hp : p a = true
    · simpa [List.dropWhile_cons, hp] using ih
    · simp [List.dropWhile_cons, hp]

/-- Surrounding a string with Python whitespace does not change the result
of `str.strip()`. -/
theorem pyStrip_wrap (w1 w2 : List Char) (s : String)
    (h1 : ∀ c ∈ w1, isPySpace c = true) (h2 : ∀ c ∈ w2, isPySpace c = true) :
    pyStrip (String.mk (w1 ++ s.data ++ w2)) = pyStrip s := by
  apply congrArg String.mk
  show ((((w1 ++ s.data ++ w2).dropWhile isPySpace).reverse.dropWhile
      isPySpace).reverse)
    = (((s.data.dropWhile isPySpace).reverse.dropWhile isPySpace).reverse)
  rw [List.append_assoc, dropWhile_all isPySpace w1 _ h1,
    dropWhile_append_split isPySpace s.data w2]
  by_cases he : (s.data.dropWhile isPySpace).isEmpty = true
  · rw [if_pos he]
    have hl : s.data.dropWhile isPySpace = [] := by
      rcases hx : s.data.dropWhile isPySpace with _ | ⟨a, l⟩
      · rfl
      · rw [hx] at he
        simp at he
    rw [dropWhile_nil_of_all isPySpace w2 h2, hl]
  · rw [if_neg he, List.reverse_append,
      dropWhile_all isPySpace w2.reverse _
        fun c hc => h2 c (List.mem_reverse.mp hc)]

/-- C9: the model identifier is stripped of surrounding whitespace before
any comparison, so two model identifiers differing only in surrounding
whitespace select the same path: the custom sentinel surrounded by
whitespace still routes to the custom path, and a prebuilt identifier
surrounded by whitespace still resolves from the prebuilt set. -/
theorem start_model_id_whitespace_insensitive (env : Env)
    (vs rs : Option String) (config_file : Option String)
    (w1 w2 : List Char) (m : String)
    (h1 : ∀ c ∈ w1, isPySpace c = true) (h2 : ∀ c ∈ w2, isPySpace c = true) :
    runPattern (start env
        { vectordb := vs, retriever := rs,
          model := some (String.mk (w1 ++ m.data ++ w2)) } config_file)
      = runPattern (start env
          { vectordb := vs, retriever := rs, model := some m } config_file) := by
  rw [runPattern_start, runPattern_start]
  have hmt : modelTag env (some (String.mk (w1 ++ m.data ++ w2)))
      = modelTag env (some m) := by
    simp only [modelTag]
    rw [pyStrip_wrap w1 w2 m h1 h2]
  exact congrArg (fun tg => (vdbResolves env vs, retResolves env rs, tg)) hmt

/-- Witness for C9 at a concrete input: " custom \t" routes like "custom". -/
theorem start_model_id_whitespace_insensitive_witness :
    runPattern (start envA
        { vectordb := some "chromadb", retriever := some "basic",
          model := some (String.mk ([' '] ++ "custom".data ++ [' ', '\t'])) }
        (some "stack.json"))
      = runPattern (start envA
          { vectordb := some "chromadb", retriever := some "basic",
            model := some "custom" } (some "stack.json")) :=
  start_model_id_whitespace_insensitive envA (some "chromadb") (some "basic")
    (some "stack.json") [' '] [' ', '\t'] "custom" (by decide) (by decide)

/-- C10: `etl` never constructs a retriever or a model: its result does not
depend on the retriever and model sections at all, it performs exactly one
vectordb attempt, no retriever/model attempt, lookup, custom call or server
start, and the ETL loader is called only with the config file and the
successfully constructed vectordb. -/
theorem etl_never_touches_retriever_or_model (env : Env)
    (v r1 r2 m1 m2 : Option String) (config_file : Option String) :
    etl env { vectordb := v, retriever := r1, model := m1 } config_file
      = etl env { vectordb := v, retriever := r2, model := m2 } config_file
    ∧ countKind EKind.kVdbAttempt
        (etl env { vectordb := v, retriever := r1, model := m1 } config_file).2 = 1
    ∧ countKind EKind.kRetAttempt
        (etl env { vectordb := v, retriever := r1, model := m1 } config_file).2 = 0
    ∧ countKind EKind.kModelAttempt
        (etl env { vectordb := v, retriever := r1, model := m1 } config_file).2 = 0
    ∧ countKind EKind.kModelLookup
        (etl env { vectordb := v, retriever := r1, model := m1 } config_file).2 = 0
    ∧ countKind EKind.kCustomCall
        (etl env { vectordb := v, retriever := r1, model := m1 } config_file).2 = 0
    ∧ countKind EKind.kHttpCall
        (etl env { vectordb := v, retriever := r1, model := m1 } config_file).2 = 0
    ∧ ∀ c vd, Event.callRunEtlLoader c vd
        ∈ (etl env { vectordb := v, retriever := r1, model := m1 } config_file).2 →
        c = config_file ∧ tryVectordb env v config_file = Except.ok vd := by
  refine ⟨rfl, ?_, ?_, ?_, ?_, ?_, ?_, ?_⟩ <;>
    rcases hr : tryVectordb env v config_file with e | vd'
  all_goals simp [etl, hr, countKind, Event.kind]

/-- A concrete ETL config with all three sections populated. -/
def cfgEtlA : Config where
  vectordb := some "chromadb"
  retriever := some "basic"
  model := some "gpt3.5"

/-- The same concrete ETL config with retriever and model sections blanked. -/
def cfgEtlB : Config where
  vectordb := some "chromadb"
  retriever := none
  model := none

/-- Witness for C10 at a concrete input. -/
theorem etl_never_touches_retriever_or_model_witness :
    etl envA cfgEtlA (some "data.json") = etl envA cfgEtlB (some "data.json")
    ∧ countKind EKind.kRetAttempt (etl envA cfgEtlA (some "data.json")).2 = 0 := by
  have h := etl_never_touches_retriever_or_model envA (some "chromadb")
    (some "basic") none (some "gpt3.5") none (some "data.json")
  exact ⟨h.1, h.2.2.1⟩

end GenaiStack
